import Mathlib

/-
  Shallow embedding of the mirror package TCB (transform/copy bucket) xaction:
  two-phase admission (tcbFactory.WhenPrevIsRunning), peer-ack ref-counting
  (tcbFactory.Start, XactTCB.recv), the run loop tail with quiescence and
  terminal-error selection (XactTCB.Run), the per-object copy step
  (XactTCB.copyObject) and the pooled CopyObjectParams scratch structs
  (allocCpObjParams, freeCpObjParams).
  Go machine integers that matter here (counters, sizes) stay far from
  32/64-bit bounds in any real cluster, so they are embedded as Nat/Int.
  The debug.Assert calls of the source are no-ops in production builds and
  are therefore not part of the transition functions.
-/

namespace Mirror

/-- The reserved opcode of the done-sending control record (source: constant 27182). -/
def doneSendingOpcode : Nat := 27182

/-- Errors of the embedded code. A nested wrapped error is carried directly;
nilErr stands for a Go nil inner error. -/
inductive GoErr where
  | nilErr
  | eof
  | oos
  | generic (code : Nat)
  | conflict (running newKind : String)
  | aborted (jobName what : String) (cause : GoErr)
  | quiesceTimeoutErr (jobName : String)
deriving DecidableEq

/-- Embeds cos.IsEOF: true on a clean end-of-stream error. -/
def isEOF : GoErr → Bool
  | GoErr.eof => true
  | _ => false

/-- Embeds cos.IsErrOOS: true on an out-of-space error. -/
def isErrOOS : GoErr → Bool
  | GoErr.oos => true
  | _ => false

/-- Bucket identity: name, provider, namespace, BID. -/
structure Bck where
  bname : String
  provider : String
  ns : String
  bid : Nat
deriving DecidableEq

/-- Modelled from the spec: Bck.Equal with sameBID and sameBackend both true is
an exact bucket-identity comparison (same identity, same backend); the body of
cluster.Bck.Equal is not part of the embedded sources. -/
def Bck.Equal (b o : Bck) : Bool := decide (b = o)

def bck0 : Bck := { bname := "", provider := "", ns := "", bid := 0 }

/-- Admission phases (cmn.ActBegin, cmn.ActCommit). -/
inductive Phase where
  | actBegin
  | actCommit
deriving DecidableEq

/-- Modelled from the spec: cmn.TCBMsg carries the dry-run flag and the
renaming rule; ToName computes the destination name from the source name. -/
structure TCBMsg where
  prepend : String
  dryRun : Bool
deriving DecidableEq

/-- Modelled from the spec: the configured renaming rule derives the
destination object name from the source object name. -/
def TCBMsg.ToName (m : TCBMsg) (objName : String) : String := m.prepend ++ objName

/-- xreg.TCBArgs: phase, bucket pair, transform descriptor presence, message. -/
structure TCBArgs where
  phase : Phase
  bckFrom : Bck
  bckTo : Bck
  dpSet : Bool
  msg : TCBMsg
deriving DecidableEq

/-- The admission factory record (tcbFactory): UUID, kind, the phase of this
request, and the request arguments. -/
structure tcbFactory where
  uuid : String
  kind : String
  phase : Phase
  args : TCBArgs
deriving DecidableEq

/-- xreg.WPR values returned by WhenPrevIsRunning. -/
inductive WPR where
  | wprAbort
  | wprUse
  | wprKeepAndStartNew
deriving DecidableEq

/-- Result of tcbFactory.WhenPrevIsRunning: the wpr value (none when only the
error return is set), the error return, and the previous factory after the
call (its args phase is mutated in place on acceptance). -/
structure WPRResult where
  wpr : Option WPR
  err : Option GoErr
  prevAfter : tcbFactory
deriving DecidableEq

/-- Embeds tcbFactory.WhenPrevIsRunning. The source rejects exactly when the
UUIDs differ; the bucket-equality and phase-ordering checks are debug
assertions (no-ops in production) and do not reject. On acceptance the
previous factory args phase is set to actCommit in place and WprUse is
returned. -/
def tcbFactory.WhenPrevIsRunning (prev e : tcbFactory) : WPRResult :=
  if e.uuid ≠ prev.uuid then
    { wpr := none, err := some (GoErr.conflict prev.uuid e.kind), prevAfter := prev }
  else
    let bckEq := Bck.Equal prev.args.bckFrom e.args.bckFrom
    { wpr := some WPR.wprUse, err := none,
      prevAfter := { prev with args := { prev.args with phase := Phase.actCommit } } }

/-- The conjunction the source asserts (debug builds only) on the acceptance
path of WhenPrevIsRunning. -/
def whenPrevDebugAsserts (prev e : tcbFactory) : Prop :=
  Bck.Equal prev.args.bckFrom e.args.bckFrom = true
    ∧ prev.phase = Phase.actBegin ∧ e.phase = Phase.actCommit

/-- Embeds the peer-ack initialization of tcbFactory.Start:
refc is stored as (number of cluster targets minus one). -/
def tcbFactory.startRefc (countTargets : Nat) : Int := (countTargets : Int) - 1

/-- Object attributes carried in a transfer record header. -/
structure ObjAttrs where
  cksumVal : Nat
  sizeB : Int
deriving DecidableEq

def objAttrs0 : ObjAttrs := { cksumVal := 0, sizeB := 0 }

/-- transport.ObjHdr: opcode, object name, bucket, attributes. -/
structure ObjHdr where
  opcode : Nat
  objName : String
  bck : Bck
  attrs : ObjAttrs
deriving DecidableEq

/-- The mutable job state of XactTCB relevant to the embedded transitions:
the peer-ack counter refc, the object and byte counters of the embedded
bucket-jog base, the store-once error cell, the locally persisted objects,
plus the immutable base name and request arguments. -/
structure XactTCB where
  baseName : String
  args : TCBArgs
  refc : Int
  objCount : Nat
  byteCount : Int
  errCell : Option GoErr
  stored : List (String × ObjAttrs)
deriving DecidableEq

/-- Embeds XactTCB.Name: base name plus the source bucket. -/
def XactTCB.Name (r : XactTCB) : String := r.baseName ++ " <= " ++ r.args.bckFrom.bname

/-- Modelled from the spec: cos.ErrValue is a store-once (first write wins)
error cell; its body is not part of the embedded sources. -/
def errStore (cell : Option GoErr) (e : GoErr) : Option GoErr :=
  match cell with
  | none => some e
  | some x => some x

/-- One invocation of the receive handler: the record header, the transport
error argument, and the environment results of lom.Init and t.PutObject on
the data path. -/
structure RecvInput where
  hdr : ObjHdr
  transportErr : Option GoErr
  lomInitErr : Option GoErr
  putErr : Option GoErr
deriving DecidableEq

/-- The guard of the first early return of recv: a transport error that is
not a clean end-of-stream. -/
def RecvInput.transportFailed (inp : RecvInput) : Bool :=
  match inp.transportErr with
  | some e => !(isEOF e)
  | none => false

/-- Resource actions taken by one recv invocation: transport.FreeRecv is
deferred on entry, cos.DrainReader is deferred only past the opcode check,
and putAttempted records whether t.PutObject was called. -/
structure RecvEffects where
  freeRecvCalled : Bool
  drainCalled : Bool
  putAttempted : Bool
deriving DecidableEq

/-- Embeds XactTCB.recv. Order of the source: FreeRecv deferred on entry;
return on a non-EOF transport error; on the done-sending opcode decrement
refc and return; then DrainReader deferred; drop if an error is already
latched; store the lom.Init error if any; otherwise PutObject and store its
error if any, else record the object as persisted locally. -/
def XactTCB.recv (r : XactTCB) (inp : RecvInput) : XactTCB × RecvEffects :=
  if RecvInput.transportFailed inp then
    (r, { freeRecvCalled := true, drainCalled := false, putAttempted := false })
  else if inp.hdr.opcode = doneSendingOpcode then
    ({ r with refc := r.refc - 1 },
     { freeRecvCalled := true, drainCalled := false, putAttempted := false })
  else if r.errCell.isSome then
    (r, { freeRecvCalled := true, drainCalled := true, putAttempted := false })
  else
    match inp.lomInitErr with
    | some e =>
        ({ r with errCell := errStore r.errCell e },
         { freeRecvCalled := true, drainCalled := true, putAttempted := false })
    | none =>
        match inp.putErr with
        | some e =>
            ({ r with errCell := errStore r.errCell e },
             { freeRecvCalled := true, drainCalled := true, putAttempted := true })
        | none =>
            ({ r with stored := (inp.hdr.objName, inp.hdr.attrs) :: r.stored },
             { freeRecvCalled := true, drainCalled := true, putAttempted := true })

/-- Folds recv over a list of inputs, keeping the job state. -/
def XactTCB.recvMany (r : XactTCB) (inps : List RecvInput) : XactTCB :=
  inps.foldl (fun s i => (XactTCB.recv s i).1) r

/-- A received done-sending control record with a clean transport status. -/
def doneMarker : RecvInput :=
  { hdr := { opcode := doneSendingOpcode, objName := "", bck := bck0, attrs := objAttrs0 },
    transportErr := none, lomInitErr := none, putErr := none }

/-- cluster.CopyObjectParams: the pooled per-object copy arguments. -/
structure CopyObjectParams where
  bckTo : Option Bck
  objNameTo : String
  buf : Nat
  dmSet : Bool
  dpSet : Bool
  dryRun : Bool
deriving DecidableEq

/-- The zero value cpObj0 of cluster.CopyObjectParams. -/
def cpObj0 : CopyObjectParams :=
  { bckTo := none, objNameTo := "", buf := 0, dmSet := false, dpSet := false, dryRun := false }

/-- Embeds allocCpObjParams over an explicit pool: pop a pooled struct, or
hand out a fresh zero-value struct when the pool is empty. -/
def allocCpObjParams : List CopyObjectParams → CopyObjectParams × List CopyObjectParams
  | [] => (cpObj0, [])
  | p :: rest => (p, rest)

/-- Embeds freeCpObjParams: the struct a is reset to the zero value cpObj0
and then put back into the pool. -/
def freeCpObjParams (a : CopyObjectParams) (pool : List CopyObjectParams) :
    List CopyObjectParams :=
  cpObj0 :: pool

/-- The size sentinel cos.ContentLengthUnknown. -/
def ContentLengthUnknown : Int := -1

/-- Result of the Target().CopyObject collaborator call. -/
inductive CopyResult where
  | ok (size : Int)
  | fail (e : GoErr)
deriving DecidableEq

/-- Environment of one copyObject invocation: the CopyObject collaborator
result and the fs.GetCapStatus error consulted after a successful copy. -/
structure CopyEnv where
  copyRes : CopyResult
  capErr : Option GoErr
deriving DecidableEq

/-- Outcome of one copyObject invocation: the job state, the params pool,
the returned error, and the params struct as it was passed to CopyObject. -/
structure CopyOutcome where
  r : XactTCB
  pool : List CopyObjectParams
  err : Option GoErr
  params : CopyObjectParams
deriving DecidableEq

/-- Embeds XactTCB.copyObject. A params struct is borrowed from the pool and
filled; on a copy error an out-of-space error is wrapped as aborted and any
other error is returned verbatim, skipping the counters; on success the
object counter is incremented, the byte counter grows by the copied size
(or by the pre-transform size when the size is unknown), and the capacity
status is consulted, a capacity error being wrapped as aborted; on every
outcome the params struct is reset and returned to the pool. -/
def XactTCB.copyObject (r : XactTCB) (pool : List CopyObjectParams)
    (lomObjName : String) (lomSize : Int) (buf : Nat) (env : CopyEnv) : CopyOutcome :=
  let objNameTo := TCBMsg.ToName r.args.msg lomObjName
  let ap := allocCpObjParams pool
  let params : CopyObjectParams :=
    { bckTo := some r.args.bckTo, objNameTo := objNameTo, buf := buf,
      dmSet := true, dpSet := r.args.dpSet, dryRun := r.args.msg.dryRun }
  match env.copyRes with
  | CopyResult.fail e =>
      let e2 := if isErrOOS e then GoErr.aborted (XactTCB.Name r) "copy-obj" e else e
      { r := r, pool := freeCpObjParams params ap.2, err := some e2, params := params }
  | CopyResult.ok size =>
      let r1 := { r with objCount := r.objCount + 1 }
      let size2 := if size = ContentLengthUnknown then lomSize else size
      let r2 := { r1 with byteCount := r1.byteCount + size2 }
      match env.capErr with
      | some ce =>
          { r := r2, pool := freeCpObjParams params ap.2,
            err := some (GoErr.aborted (XactTCB.Name r) "copy-obj" ce), params := params }
      | none =>
          { r := r2, pool := freeCpObjParams params ap.2, err := none, params := params }

/-- Well-formedness of a copy result: a known size is non-negative, or the
size is the unknown sentinel. -/
def copyResSizeOK : CopyResult → Prop
  | CopyResult.ok size => 0 ≤ size ∨ size = ContentLengthUnknown
  | CopyResult.fail _ => True

/-- Modelled from the spec: the quiescence wait resolves into exactly one of
quiesced, aborted, or timed out; the Quiesce loop body is not part of the
embedded sources. -/
inductive QuiRes where
  | quiesced
  | aborted
  | timeout
deriving DecidableEq

/-- Embeds the terminal-error selection at the end of XactTCB.Run: the
pipeline error from the bucket-jog Wait if set, else the error cell value;
when both are nil, the quiescence outcome decides: quiesced gives nil,
aborted gives an aborted-classified error, timeout gives the distinct
quiesce-timeout error. -/
def runFinishErr (jobName : String) (pipeErr cellErr : Option GoErr) (q : QuiRes) :
    Option GoErr :=
  let err := match pipeErr with
    | some e => some e
    | none => cellErr
  match err with
  | some e => some e
  | none =>
      match q with
      | QuiRes.quiesced => none
      | QuiRes.aborted => some (GoErr.aborted jobName "" GoErr.nilErr)
      | QuiRes.timeout => some (GoErr.quiesceTimeoutErr jobName)

/-- Events of one execution of XactTCB.Run, in order. -/
inductive RunEvent where
  | setXact
  | dmOpen
  | wgDone
  | pipelineSend (objName : String)
  | pipelineDone (err : Option GoErr)
  | bcastDone
  | quiesceRes (q : QuiRes)
  | dmClose (err : Option GoErr)
  | dmUnreg
  | finish (err : Option GoErr)
deriving DecidableEq

/-- The event trace of XactTCB.Run. The list sends stands for the data
records pushed by the local pipeline; modelled from the spec: the bucket-jog
Wait returns only after the local enumeration has fully completed, so every
pipeline send precedes the pipelineDone event. After Wait the done-sending
marker is broadcast, the wait quiesces, and the channel is closed and
unregistered before Finish, mirroring the straight-line source. -/
def runTrace (jobName : String) (sends : List String) (pipeErr cellErr : Option GoErr)
    (q : QuiRes) : List RunEvent :=
  let err := runFinishErr jobName pipeErr cellErr q
  [RunEvent.setXact, RunEvent.dmOpen, RunEvent.wgDone]
    ++ sends.map RunEvent.pipelineSend
    ++ [RunEvent.pipelineDone pipeErr, RunEvent.bcastDone, RunEvent.quiesceRes q,
        RunEvent.dmClose err, RunEvent.dmUnreg, RunEvent.finish err]

/-- Error-store events of one job: the pipeline terminal error becoming
available, or a receive error being stored by the handler. -/
inductive ErrEvent where
  | pipelineFail (e : GoErr)
  | recvFail (e : GoErr)
deriving DecidableEq

/-- The two error slots of a job: the pipeline error returned by the
bucket-jog Wait, and the store-once receive-error cell. -/
structure ErrState where
  pipeErr : Option GoErr
  cell : Option GoErr
deriving DecidableEq

def errState0 : ErrState := { pipeErr := none, cell := none }

/-- Applies one error-store event: each slot keeps its first value. -/
def applyErrEvent (s : ErrState) : ErrEvent → ErrState
  | ErrEvent.pipelineFail e =>
      { s with pipeErr := match s.pipeErr with | none => some e | some x => some x }
  | ErrEvent.recvFail e => { s with cell := errStore s.cell e }

def applyErrEvents (s : ErrState) (evs : List ErrEvent) : ErrState :=
  evs.foldl applyErrEvent s

/-- The terminal error of a job that quiesced cleanly, given its error
slots, per the selection at the end of XactTCB.Run. -/
def terminalErr (jobName : String) (s : ErrState) : Option GoErr :=
  runFinishErr jobName s.pipeErr s.cell QuiRes.quiesced

/-
  Concrete instances used by counterexamples and witnesses.
-/

def argsEx : TCBArgs :=
  { phase := Phase.actCommit, bckFrom := bck0, bckTo := bck0, dpSet := false,
    msg := { prepend := "", dryRun := false } }

def prevEx : tcbFactory :=
  { uuid := "u1", kind := "tcb", phase := Phase.actCommit, args := argsEx }

def newEx : tcbFactory :=
  { uuid := "u1", kind := "tcb", phase := Phase.actBegin,
    args := { argsEx with phase := Phase.actBegin } }

def xactEx : XactTCB :=
  { baseName := "tcb", args := argsEx, refc := 2, objCount := 0, byteCount := 0,
    errCell := none, stored := [] }

def envOk7 : CopyEnv := { copyRes := CopyResult.ok 7, capErr := none }

def envOOS : CopyEnv := { copyRes := CopyResult.fail GoErr.oos, capErr := none }

def badTransportInput : RecvInput :=
  { hdr := { opcode := 0, objName := "x", bck := bck0, attrs := objAttrs0 },
    transportErr := some (GoErr.generic 5), lomInitErr := none, putErr := none }

def dataInput : RecvInput :=
  { hdr := { opcode := 0, objName := "x", bck := bck0, attrs := objAttrs0 },
    transportErr := none, lomInitErr := none, putErr := none }

/-
  C1 - two-phase admission.
-/

/-- C1 counterexample: with matching job IDs but the wrong phase ordering
(running job in commit, new request in begin) the source still accepts the
request and tells the caller to reuse the running instance, whereas the
claim demands rejection with a conflict error on wrong phase ordering. -/
theorem whenPrev_phase_counterexample :
    (tcbFactory.WhenPrevIsRunning prevEx newEx).err = none
    ∧ (tcbFactory.WhenPrevIsRunning prevEx newEx).wpr = some WPR.wprUse
    ∧ ¬(prevEx.phase = Phase.actBegin ∧ newEx.phase = Phase.actCommit) := by
  decide

/-- C1 (amended): the admission request is accepted exactly when its job ID
equals the running job ID; on acceptance the running job args phase is set
to commit in place and the caller is told to reuse the instance, and on an
ID mismatch the request is rejected with a descriptive conflict error and
the running factory is left unchanged. Bucket equality and phase ordering
are debug assertions only. -/
theorem whenPrev_accept_iff_same_uuid (prev e : tcbFactory) :
    ((tcbFactory.WhenPrevIsRunning prev e).err = none ↔ e.uuid = prev.uuid)
    ∧ (e.uuid = prev.uuid →
        (tcbFactory.WhenPrevIsRunning prev e).wpr = some WPR.wprUse
        ∧ (tcbFactory.WhenPrevIsRunning prev e).prevAfter
            = { prev with args := { prev.args with phase := Phase.actCommit } })
    ∧ (e.uuid ≠ prev.uuid →
        (tcbFactory.WhenPrevIsRunning prev e).err
            = some (GoErr.conflict prev.uuid e.kind)
        ∧ (tcbFactory.WhenPrevIsRunning prev e).prevAfter = prev) := by
  by_cases h : e.uuid = prev.uuid <;> simp [tcbFactory.WhenPrevIsRunning, h]

/-- C1 witness: the amended theorem applied to a concrete matching pair. -/
theorem whenPrev_accept_iff_same_uuid_witness :
    (tcbFactory.WhenPrevIsRunning prevEx newEx).wpr = some WPR.wprUse :=
  ((whenPrev_accept_iff_same_uuid prevEx newEx).2.1 rfl).1

/-
  C2 - peer-ack counter.
-/

theorem recvMany_replicate_done_refc (k : Nat) (r : XactTCB) :
    (XactTCB.recvMany r (List.replicate k doneMarker)).refc = r.refc - k := by
  induction k generalizing r with
  | zero => simp [XactTCB.recvMany]
  | succ n ih =>
      rw [List.replicate_succ]
      show (XactTCB.recvMany (XactTCB.recv r doneMarker).1
        (List.replicate n doneMarker)).refc = _
      rw [ih]
      simp [XactTCB.recv, doneMarker, RecvInput.transportFailed, isEOF]
      omega

/-- C2: a received done-sending record with a clean transport status
decrements the peer-ack counter by exactly one; starting from the value
stored at job start, after N minus 1 done markers the counter is exactly
zero, and after at most N minus 1 done markers it is never negative. -/
theorem refc_done_markers (N k : Nat) (r : XactTCB)
    (hr : r.refc = tcbFactory.startRefc N) (hN : 1 ≤ N) :
    (∀ (s : XactTCB) (inp : RecvInput), RecvInput.transportFailed inp = false →
        inp.hdr.opcode = doneSendingOpcode →
        (XactTCB.recv s inp).1.refc = s.refc - 1)
    ∧ (XactTCB.recvMany r (List.replicate (N - 1) doneMarker)).refc = 0
    ∧ (k ≤ N - 1 → 0 ≤ (XactTCB.recvMany r (List.replicate k doneMarker)).refc) := by
  refine ⟨?_, ?_, ?_⟩
  · intro s inp h1 h2
    simp [XactTCB.recv, h1, h2]
  · rw [recvMany_replicate_done_refc, hr]
    simp only [tcbFactory.startRefc]
    omega
  · intro hk
    rw [recvMany_replicate_done_refc, hr]
    simp only [tcbFactory.startRefc]
    omega

/-- C2 witness: in a three-target cluster the counter starts at two and
reaches exactly zero after two done markers. -/
theorem refc_done_markers_witness :
    (XactTCB.recvMany xactEx (List.replicate 2 doneMarker)).refc = 0 :=
  (refc_done_markers 3 2 xactEx (by decide) (by decide)).2.1

/-
  C3 - quiescence outcomes and the final error.
-/

/-- C3: with no pipeline or receive error stored, the quiescence outcome
determines the terminal error: quiesced gives nil, aborted gives an
aborted-classified error, timed out gives the distinct quiesce-timeout
error; and in every case the trace of Run ends by closing the channel,
unregistering the receiver and finishing the job with that error. -/
theorem run_quiescence_outcomes (jobName : String) (sends : List String) (q : QuiRes) :
    (q = QuiRes.quiesced → runFinishErr jobName none none q = none)
    ∧ (q = QuiRes.aborted →
        runFinishErr jobName none none q
          = some (GoErr.aborted jobName "" GoErr.nilErr))
    ∧ (q = QuiRes.timeout →
        runFinishErr jobName none none q = some (GoErr.quiesceTimeoutErr jobName))
    ∧ ∃ pre, runTrace jobName sends none none q
        = pre ++ [RunEvent.quiesceRes q,
            RunEvent.dmClose (runFinishErr jobName none none q), RunEvent.dmUnreg,
            RunEvent.finish (runFinishErr jobName none none q)] := by
  refine ⟨?_, ?_, ?_, ?_⟩
  · rintro rfl; rfl
  · rintro rfl; rfl
  · rintro rfl; rfl
  · refine ⟨[RunEvent.setXact, RunEvent.dmOpen, RunEvent.wgDone]
      ++ sends.map RunEvent.pipelineSend
      ++ [RunEvent.pipelineDone none, RunEvent.bcastDone], ?_⟩
    simp [runTrace]

/-- C3 witness: the timeout outcome at a concrete job. -/
theorem run_quiescence_outcomes_witness :
    runFinishErr "j" none none QuiRes.timeout = some (GoErr.quiesceTimeoutErr "j") :=
  (run_quiescence_outcomes "j" [] QuiRes.timeout).2.2.1 rfl

/-
  C4 - first-error-wins.
-/

/-- C4 counterexample: a receive error stored first and a pipeline error
stored second give the pipeline error as the terminal error, not the first
stored one, refuting the claim for the receive-then-pipeline order. -/
theorem first_error_wins_counterexample :
    terminalErr "j" (applyErrEvents errState0
        [ErrEvent.recvFail (GoErr.generic 1), ErrEvent.pipelineFail (GoErr.generic 2)])
      = some (GoErr.generic 2)
    ∧ GoErr.generic 2 ≠ GoErr.generic 1 := by
  decide

/-- C4 (amended): the terminal error is the pipeline error whenever one is
set, regardless of store order; when only receive errors are stored the
first stored receive error wins and later receive errors are discarded. -/
theorem first_error_wins_amended (jobName : String) (e1 e2 : GoErr) :
    terminalErr jobName (applyErrEvents errState0
        [ErrEvent.pipelineFail e1, ErrEvent.recvFail e2]) = some e1
    ∧ terminalErr jobName (applyErrEvents errState0
        [ErrEvent.recvFail e1, ErrEvent.recvFail e2]) = some e1
    ∧ terminalErr jobName (applyErrEvents errState0
        [ErrEvent.recvFail e1, ErrEvent.pipelineFail e2]) = some e2 :=
  ⟨rfl, rfl, rfl⟩

/-
  C5 - object and byte counters.
-/

theorem recv_preserves_counters (s : XactTCB) (inp : RecvInput) :
    (XactTCB.recv s inp).1.objCount = s.objCount
    ∧ (XactTCB.recv s inp).1.byteCount = s.byteCount := by
  unfold XactTCB.recv
  split
  · exact ⟨rfl, rfl⟩
  split
  · exact ⟨rfl, rfl⟩
  split
  · exact ⟨rfl, rfl⟩
  split
  · exact ⟨rfl, rfl⟩
  split
  · exact ⟨rfl, rfl⟩
  · exact ⟨rfl, rfl⟩

/-- C5: a successful copy increments the object counter by exactly one and
grows the byte counter by the copied size, or by the pre-transform size
when the size is the unknown sentinel; a failed copy leaves the state
unchanged; under well-formed sizes both counters are non-decreasing across
a copy step, and the receive handler never changes either counter. -/
theorem copyObject_counters (r : XactTCB) (pool : List CopyObjectParams)
    (lomObjName : String) (lomSize : Int) (buf : Nat) (env : CopyEnv) :
    (∀ size, env.copyRes = CopyResult.ok size →
        (XactTCB.copyObject r pool lomObjName lomSize buf env).r.objCount
            = r.objCount + 1
        ∧ (XactTCB.copyObject r pool lomObjName lomSize buf env).r.byteCount
            = r.byteCount + (if size = ContentLengthUnknown then lomSize else size))
    ∧ (∀ e, env.copyRes = CopyResult.fail e →
        (XactTCB.copyObject r pool lomObjName lomSize buf env).r = r)
    ∧ (0 ≤ lomSize → copyResSizeOK env.copyRes →
        r.objCount ≤ (XactTCB.copyObject r pool lomObjName lomSize buf env).r.objCount
        ∧ r.byteCount ≤ (XactTCB.copyObject r pool lomObjName lomSize buf env).r.byteCount)
    ∧ (∀ (s : XactTCB) (inp : RecvInput),
        (XactTCB.recv s inp).1.objCount = s.objCount
        ∧ (XactTCB.recv s inp).1.byteCount = s.byteCount) := by
  refine ⟨?_, ?_, ?_, recv_preserves_counters⟩
  · intro size hs
    rcases hcap : env.capErr with _ | ce <;>
      simp [XactTCB.copyObject, hs, hcap]
  · intro e hs
    simp [XactTCB.copyObject, hs]
  · intro h0 hok
    rcases hres : env.copyRes with size | e
    · rw [hres] at hok
      simp only [copyResSizeOK] at hok
      have hsz : 0 ≤ (if size = ContentLengthUnknown then lomSize else size) := by
        split
        · exact h0
        · rcases hok with h1 | h1
          · exact h1
          · simp_all
      rcases hcap : env.capErr with _ | ce <;>
        simp [XactTCB.copyObject, hres, hcap] <;> omega
    · simp [XactTCB.copyObject, hres]

/-- C5 witness: a concrete successful copy of known size grows the byte
counter, with the size hypotheses discharged concretely. -/
theorem copyObject_counters_witness :
    (0:Int) ≤ 10
    ∧ copyResSizeOK envOk7.copyRes
    ∧ xactEx.byteCount ≤ (XactTCB.copyObject xactEx [] "o" 10 1 envOk7).r.byteCount :=
  ⟨by decide, Or.inl (by decide),
    ((copyObject_counters xactEx [] "o" 10 1 envOk7).2.2.1 (by decide)
      (Or.inl (by decide))).2⟩

/-
  C6 - error classification of the copy step.
-/

/-- C6: an out-of-space error from the copy operation is wrapped as an
aborted-classified error, any other copy error is returned verbatim, a
capacity error reported after a successful copy is wrapped as aborted, and
a successful copy with a clean capacity status returns no error. -/
theorem copyObject_error_classification (r : XactTCB) (pool : List CopyObjectParams)
    (lomObjName : String) (lomSize : Int) (buf : Nat) (env : CopyEnv) :
    (∀ e, env.copyRes = CopyResult.fail e → isErrOOS e = true →
        (XactTCB.copyObject r pool lomObjName lomSize buf env).err
          = some (GoErr.aborted (XactTCB.Name r) "copy-obj" e))
    ∧ (∀ e, env.copyRes = CopyResult.fail e → isErrOOS e = false →
        (XactTCB.copyObject r pool lomObjName lomSize buf env).err = some e)
    ∧ (∀ size ce, env.copyRes = CopyResult.ok size → env.capErr = some ce →
        (XactTCB.copyObject r pool lomObjName lomSize buf env).err
          = some (GoErr.aborted (XactTCB.Name r) "copy-obj" ce))
    ∧ (∀ size, env.copyRes = CopyResult.ok size → env.capErr = none →
        (XactTCB.copyObject r pool lomObjName lomSize buf env).err = none) := by
  refine ⟨?_, ?_, ?_, ?_⟩
  · intro e hs hoos
    simp [XactTCB.copyObject, hs, hoos]
  · intro e hs hoos
    simp [XactTCB.copyObject, hs, hoos]
  · intro size ce hs hcap
    simp [XactTCB.copyObject, hs, hcap]
  · intro size hs hcap
    simp [XactTCB.copyObject, hs, hcap]

/-- C6 witness: a concrete out-of-space copy error is wrapped as aborted. -/
theorem copyObject_error_classification_witness :
    (XactTCB.copyObject xactEx [] "o" 10 1 envOOS).err
      = some (GoErr.aborted (XactTCB.Name xactEx) "copy-obj" GoErr.oos) :=
  (copyObject_error_classification xactEx [] "o" 10 1 envOOS).1 GoErr.oos rfl rfl

/-
  C7 - the done marker follows the enumeration.
-/

/-- C7: in every trace of Run the done-sending broadcast occurs exactly
once, the pipeline-completed event precedes it, and no data send of this
node follows it. -/
theorem done_marker_after_enumeration (jobName : String) (sends : List String)
    (pipeErr cellErr : Option GoErr) (q : QuiRes) :
    ∃ pre post,
      runTrace jobName sends pipeErr cellErr q = pre ++ RunEvent.bcastDone :: post
      ∧ RunEvent.pipelineDone pipeErr ∈ pre
      ∧ (∀ s, RunEvent.pipelineSend s ∉ post)
      ∧ RunEvent.bcastDone ∉ pre
      ∧ RunEvent.bcastDone ∉ post := by
  refine ⟨[RunEvent.setXact, RunEvent.dmOpen, RunEvent.wgDone]
      ++ sends.map RunEvent.pipelineSend ++ [RunEvent.pipelineDone pipeErr],
    [RunEvent.quiesceRes q,
     RunEvent.dmClose (runFinishErr jobName pipeErr cellErr q), RunEvent.dmUnreg,
     RunEvent.finish (runFinishErr jobName pipeErr cellErr q)], ?_, ?_, ?_, ?_, ?_⟩
  · simp [runTrace]
  · simp
  · intro s
    simp
  · simp [List.mem_append, List.mem_map]
  · simp

/-- C7 witness: the trace ordering at a concrete job with one send. -/
theorem done_marker_after_enumeration_witness :
    ∃ pre post,
      runTrace "j" ["a"] none none QuiRes.quiesced
          = pre ++ RunEvent.bcastDone :: post
      ∧ RunEvent.pipelineDone none ∈ pre
      ∧ (∀ s, RunEvent.pipelineSend s ∉ post)
      ∧ RunEvent.bcastDone ∉ pre
      ∧ RunEvent.bcastDone ∉ post :=
  done_marker_after_enumeration "j" ["a"] none none QuiRes.quiesced

/-
  C8 - draining and releasing the payload stream.
-/

/-- C8 counterexample: on a non-EOF transport error the handler releases
the receive resources but returns before the drain is deferred, so the
payload stream is not drained on that exit path, refuting the claim that
every exit path both drains and releases. -/
theorem recv_drain_counterexample :
    (XactTCB.recv xactEx badTransportInput).2.freeRecvCalled = true
    ∧ (XactTCB.recv xactEx badTransportInput).2.drainCalled = false := by
  decide

/-- C8 (amended): every exit path of the receive handler releases the
receive resources, and the payload stream is drained exactly on the
data-record paths, that is when the transport status is clean and the
opcode is not the done-sending sentinel. -/
theorem recv_release_and_drain (s : XactTCB) (inp : RecvInput) :
    (XactTCB.recv s inp).2.freeRecvCalled = true
    ∧ ((XactTCB.recv s inp).2.drainCalled = true ↔
        (RecvInput.transportFailed inp = false
          ∧ inp.hdr.opcode ≠ doneSendingOpcode)) := by
  cases htf : RecvInput.transportFailed inp with
  | true => simp [XactTCB.recv, htf]
  | false =>
      by_cases hop : inp.hdr.opcode = doneSendingOpcode
      · simp [XactTCB.recv, htf, hop]
      · cases hec : s.errCell with
        | some e => simp [XactTCB.recv, htf, hop, hec]
        | none =>
            cases hli : inp.lomInitErr with
            | some e => simp [XactTCB.recv, htf, hop, hec, hli]
            | none =>
                cases hpe : inp.putErr with
                | some e => simp [XactTCB.recv, htf, hop, hec, hli, hpe]
                | none => simp [XactTCB.recv, htf, hop, hec, hli, hpe]

/-- C8 witness: a clean data record is drained. -/
theorem recv_release_and_drain_witness :
    (XactTCB.recv xactEx dataInput).2.drainCalled = true :=
  (recv_release_and_drain xactEx dataInput).2.mpr ⟨rfl, by decide⟩

/-
  C9 - the pooled copy-params scratch structs.
-/

theorem copyObject_pool_eq (r : XactTCB) (pool : List CopyObjectParams)
    (lomObjName : String) (lomSize : Int) (buf : Nat) (env : CopyEnv) :
    (XactTCB.copyObject r pool lomObjName lomSize buf env).pool
      = cpObj0 :: (allocCpObjParams pool).2 := by
  rcases hres : env.copyRes with size | e
  · rcases hcap : env.capErr with _ | ce <;>
      simp [XactTCB.copyObject, hres, hcap, freeCpObjParams]
  · simp [XactTCB.copyObject, hres, freeCpObjParams]

/-- C9: if every struct in the pool is the zero value, then after any
outcome of a copy every struct in the pool is still the zero value, the
borrowed struct was returned (the pool holds max 1 n structs), and the next
borrow hands out a fully reset struct equal to the zero value. -/
theorem cpObjParams_pool_reset (r : XactTCB) (pool : List CopyObjectParams)
    (lomObjName : String) (lomSize : Int) (buf : Nat) (env : CopyEnv)
    (hpool : ∀ p ∈ pool, p = cpObj0) :
    (∀ p ∈ (XactTCB.copyObject r pool lomObjName lomSize buf env).pool, p = cpObj0)
    ∧ (XactTCB.copyObject r pool lomObjName lomSize buf env).pool.length
        = max 1 pool.length
    ∧ (allocCpObjParams (XactTCB.copyObject r pool lomObjName lomSize buf env).pool).1
        = cpObj0 := by
  rw [copyObject_pool_eq] at *
  refine ⟨?_, ?_, rfl⟩
  · intro p hp
    rcases List.mem_cons.mp hp with h | h
    · exact h
    · cases pool with
      | nil => simp [allocCpObjParams] at h
      | cons q rest =>
          exact hpool p (List.mem_cons_of_mem q (by simpa [allocCpObjParams] using h))
  · cases pool with
    | nil => simp [allocCpObjParams]
    | cons q rest => simp [allocCpObjParams]

/-- C9 witness: with a zeroed singleton pool the next borrow after a copy
yields the zero struct. -/
theorem cpObjParams_pool_reset_witness :
    (allocCpObjParams (XactTCB.copyObject xactEx [cpObj0] "o" 10 1 envOk7).pool).1
      = cpObj0 :=
  (cpObjParams_pool_reset xactEx [cpObj0] "o" 10 1 envOk7 (by decide)).2.2

/-
  C10 - frame effects of the receive handler.
-/

/-- C10: a done-sending record with a clean transport status changes only
the peer-ack counter, leaving the object counter, the byte counter, the
error cell and the set of locally persisted objects unchanged and
attempting no persist; a non-EOF transport error changes no job state at
all. -/
theorem recv_frame_effects (s : XactTCB) (inp : RecvInput) :
    (RecvInput.transportFailed inp = false → inp.hdr.opcode = doneSendingOpcode →
        (XactTCB.recv s inp).1 = { s with refc := s.refc - 1 }
        ∧ (XactTCB.recv s inp).1.objCount = s.objCount
        ∧ (XactTCB.recv s inp).1.byteCount = s.byteCount
        ∧ (XactTCB.recv s inp).1.errCell = s.errCell
        ∧ (XactTCB.recv s inp).1.stored = s.stored
        ∧ (XactTCB.recv s inp).2.putAttempted = false)
    ∧ (RecvInput.transportFailed inp = true →
        (XactTCB.recv s inp).1 = s ∧ (XactTCB.recv s inp).2.putAttempted = false) := by
  constructor
  · intro h1 h2
    simp [XactTCB.recv, h1, h2]
  · intro h1
    simp [XactTCB.recv, h1]

/-- C10 witness: the done marker applied to a concrete state decrements
only the counter. -/
theorem recv_frame_effects_witness :
    (XactTCB.recv xactEx doneMarker).1 = { xactEx with refc := xactEx.refc - 1 } :=
  ((recv_frame_effects xactEx doneMarker).1 rfl rfl).1

end Mirror
